import Mathlib

/-!
Shallow embedding of the capture-retention-timelapse pipeline of
`spider-server` (`src/workers/camera.py` and `src/workers/timelapse.py`),
with theorems checking the specification's claims about it.

Modelling conventions:
* filenames are `String`s (Python compares and sorts them by code point;
  we model code-point comparison on `Char` lists);
* Python integers are `Nat` (all quantities involved are nonnegative);
* `numpy.linspace(0, n-1, t, dtype=int)` is modelled in exact integer
  arithmetic: element `i` is `⌊i·(n-1)/(t-1)⌋` (numpy pins the final
  element to the exact endpoint `n-1`, and `dtype=int` truncates the
  nonnegative values toward zero, i.e. floors them);
* `math.ceil(a / b)` on exact values is `(a + b - 1) / b` in `Nat`;
* `int(x * 0.2)` on a nonnegative integer `x` is `x / 5` in `Nat`;
* the external `ffmpeg` invocations are modelled by an oracle
  `encodeOk : ℕ → Bool` giving the success of each chunk encode, and the
  run is recorded as the list of encoder calls, the concat manifest and
  the number of concatenation invocations.
-/

/-- Configuration constant `PICTURE_FREQUENCY = 10` (camera.py line 18). -/
def PICTURE_FREQUENCY : ℕ := 10

/-- Configuration constant `MAX_HISTORY = 12 * 60 * 60` (camera.py line 19). -/
def MAX_HISTORY : ℕ := 12 * 60 * 60

/-- Configuration constant `TIMELAPSE_LENGTH = 20` (timelapse.py line 10). -/
def TIMELAPSE_LENGTH : ℕ := 20

/-- Configuration constant `TIMELAPSE_FPS = 24` (timelapse.py line 11). -/
def TIMELAPSE_FPS : ℕ := 24

/-- Configuration constant `TIMELAPSE_SPLIT = 1` (timelapse.py line 12). -/
def TIMELAPSE_SPLIT : ℕ := 1

/-- Configuration constant `TIMELAPSE_GENERATE_FREQUENCY = 60 * 60` (timelapse.py line 13). -/
def TIMELAPSE_GENERATE_FREQUENCY : ℕ := 60 * 60

/-- Python code-point comparison of two characters. -/
def charLtB (a b : Char) : Bool := a.toNat < b.toNat

/-- Python `<` on strings, as lexicographic code-point order on the character lists. -/
def strLtB : List Char → List Char → Bool
  | [], [] => false
  | [], _ :: _ => true
  | _ :: _, [] => false
  | a :: as, b :: bs =>
    if charLtB a b then true
    else if charLtB b a then false
    else strLtB as bs

/-- Insert a string into an ascending list, keeping it ascending (stable). -/
def insertStr (a : String) : List String → List String
  | [] => [a]
  | b :: t => if strLtB b.data a.data then b :: insertStr a t else a :: b :: t

/-- Python `sorted` on a list of strings: ascending code-point order. -/
def sortStrings : List String → List String
  | [] => []
  | a :: t => insertStr a (sortStrings t)

/-- Python `s.endswith(suffix)`. -/
def strEndsWithB (s suffix : String) : Bool := suffix.data.isSuffixOf s.data

/-- Python `s[:-n]` for `n ≤ len s`: drop the last `n` characters. -/
def strDropRight (s : String) (n : ℕ) : String := String.mk (s.data.take (s.data.length - n))

/-- Numeric value of a decimal digit character. -/
def digitVal (c : Char) : ℕ := c.toNat - 48

/-- Value of a two-digit decimal field. -/
def twoDigitNum (c1 c2 : Char) : ℕ := 10 * digitVal c1 + digitVal c2

/-- One `strptime` field that matches one or two digits (two preferred, as the
CPython `_strptime` regexes `1[0-2]|0[1-9]|[1-9]` etc. do): a two-digit match is
taken when both characters are digits and the value lies in `[lo2, hi2]`;
otherwise a single digit is taken when `allow1` accepts its value. -/
def matchField (lo2 hi2 : ℕ) (allow1 : ℕ → Bool) : List Char → Option (ℕ × List Char)
  | c1 :: c2 :: rest =>
    if c1.isDigit && c2.isDigit && decide (lo2 ≤ twoDigitNum c1 c2)
        && decide (twoDigitNum c1 c2 ≤ hi2) then
      some (twoDigitNum c1 c2, rest)
    else if c1.isDigit && allow1 (digitVal c1) then
      some (digitVal c1, c2 :: rest)
    else none
  | [c1] => if c1.isDigit && allow1 (digitVal c1) then some (digitVal c1, []) else none
  | [] => none

/-- The `strptime` `%Y` field: exactly four digits. -/
def matchYear : List Char → Option (ℕ × List Char)
  | c1 :: c2 :: c3 :: c4 :: rest =>
    if c1.isDigit && c2.isDigit && c3.isDigit && c4.isDigit then
      some (1000 * digitVal c1 + 100 * digitVal c2 + 10 * digitVal c3 + digitVal c4, rest)
    else none
  | _ => none

/-- Match one literal character of the format string. -/
def matchLit (c : Char) : List Char → Option (List Char)
  | c1 :: rest => if c1 = c then some rest else none
  | [] => none

/-- Gregorian leap-year rule, as used by Python `datetime`. -/
def isLeapYear (y : ℕ) : Bool := (y % 4 == 0 && y % 100 != 0) || y % 400 == 0

/-- Number of days of a month, as validated by the Python `datetime` constructor. -/
def daysInMonth (y m : ℕ) : ℕ :=
  if m = 2 then (if isLeapYear y then 29 else 28)
  else if m = 4 || m = 6 || m = 9 || m = 11 then 30
  else 31

/-- A parsed `datetime` value (camera.py works at second resolution). -/
structure Timestamp where
  year : ℕ
  month : ℕ
  day : ℕ
  hour : ℕ
  minute : ℕ
  second : ℕ
deriving Repr, DecidableEq

/-- Python `datetime.strptime(s, "%Y-%m-%d_%H-%M-%S")` (camera.py line 177 with
`DATETIME_FORMAT` from line 21): `none` models the `ValueError` raised on a
failed parse, including when unconverted trailing data remains. -/
def strptimeTS (s : String) : Option Timestamp := do
  let (y, r1) ← matchYear s.data
  let r2 ← matchLit '-' r1
  let (mo, r3) ← matchField 1 12 (fun v => 1 ≤ v) r2
  let r4 ← matchLit '-' r3
  let (d, r5) ← matchField 1 31 (fun v => 1 ≤ v) r4
  let r6 ← matchLit '_' r5
  let (h, r7) ← matchField 0 23 (fun _ => true) r6
  let r8 ← matchLit '-' r7
  let (mi, r9) ← matchField 0 59 (fun _ => true) r8
  let r10 ← matchLit '-' r9
  let (se, r11) ← matchField 0 59 (fun _ => true) r10
  if r11 = [] && 1 ≤ y && d ≤ daysInMonth y mo then
    some ⟨y, mo, d, h, mi, se⟩
  else none

/-- Order-preserving key of a valid `Timestamp` (field bounds guaranteed by the
parser make this encoding of the lexicographic `datetime` order injective). -/
def tsKey (t : Timestamp) : ℕ :=
  ((((t.year * 13 + t.month) * 32 + t.day) * 24 + t.hour) * 60 + t.minute) * 60 + t.second

/-- The per-file condition of the retention sweep (camera.py lines 173-181): a
file is removed exactly when it ends in `.jpg`, its name minus the `.jpg`
extension parses as a timestamp, and that timestamp is before the cutoff. -/
def retention_condemns (cutoff : Timestamp) (f : String) : Bool :=
  strEndsWithB f ".jpg" &&
    match strptimeTS (strDropRight f 4) with
    | some t => decide (tsKey t < tsKey cutoff)
    | none => false

/-- The files a retention sweep deletes from a directory listing. -/
def retention_deleted (files : List String) (cutoff : Timestamp) : List String :=
  files.filter (retention_condemns cutoff)

/-- The files still present after a retention sweep. -/
def retention_survivors (files : List String) (cutoff : Timestamp) : List String :=
  files.filter (fun f => ! retention_condemns cutoff f)

/-- Thumbnail size computed by camera.py lines 157-158:
`(int(img.width * SMALL_SCALE), int(img.height * SMALL_SCALE))` with
`SMALL_SCALE = 0.2`, i.e. exact floor of one fifth of each dimension. -/
def thumb_size (w h : ℕ) : ℕ × ℕ := (w / 5, h / 5)

/-- Sleep performed at the end of each capture-loop iteration
(camera.py line 184): `time.sleep(PICTURE_FREQUENCY)`, a constant independent
of the elapsed processing time of the iteration. -/
def capture_sleep (_elapsed : ℕ) : ℕ := PICTURE_FREQUENCY

/-- Modelled from the spec: the sleep duration the specification describes for
the capture loop — the period minus the elapsed processing time, floored at a
fixed minimum sleep. Stated here only to be compared with `capture_sleep`. -/
def spec_capture_sleep (period elapsed minSleep : ℕ) : ℕ := max (period - elapsed) minSleep

/-- Sleep performed by the standalone timelapse script's main loop
(timelapse.py line 132): `time.sleep(max(TIMELAPSE_GENERATE_FREQUENCY - took, 60))`. -/
def timelapse_loop_sleep (took : ℕ) : ℕ := max (TIMELAPSE_GENERATE_FREQUENCY - took) 60

/-- The companion-image listing (timelapse.py line 47):
`sorted(filter(lambda f: f.endswith("_small.jpg"), os.listdir(PICTURE_DIR)))`. -/
def companions (listing : List String) : List String :=
  sortStrings (listing.filter (fun f => strEndsWithB f "_small.jpg"))

/-- Index sequence of `numpy.linspace(0, n - 1, t, dtype=int)`
(timelapse.py lines 61-66), in exact integer arithmetic: element `i` is
`⌊i·(n-1)/(t-1)⌋` (for `t = 1` numpy returns the single element `[0]`, which
the `Nat` convention `x / 0 = 0` reproduces). -/
def sampleIndices (n t : ℕ) : List ℕ :=
  (List.range t).map (fun i => i * (n - 1) / (t - 1))

/-- The temporal sampler of timelapse.py lines 54-68 (interpolation variant):
clamp the target frame count to the number of available images, then take the
images at the evenly interpolated indices. -/
def sample (images : List String) (targetFrames : ℕ) : List String :=
  let n := images.length
  let t := if n < targetFrames then n else targetFrames
  (sampleIndices n t).map (fun i => images.getD i "")

/-- Python `l[::step]` for `step ≥ 1`: the elements whose index is a multiple
of `step`, in order. -/
def everyNth (l : List String) (step : ℕ) : List String :=
  (l.enum.filter (fun p => p.fst % step == 0)).map (fun p => p.snd)

/-- The temporal sampler of camera.py lines 72-81 (fixed-step decimation
variant): clamp the target frame count, then
`step = max(1, num_images // target)` and `images[::step][:target]`. -/
def sampleDecimate (images : List String) (targetFrames : ℕ) : List String :=
  let n := images.length
  let t := if n < targetFrames then n else targetFrames
  let step := max 1 (n / t)
  (everyNth images step).take t

/-- Chunk size `frames_per_chunk = TIMELAPSE_FPS * TIMELAPSE_SPLIT` (timelapse.py line 70). -/
def frames_per_chunk : ℕ := TIMELAPSE_FPS * TIMELAPSE_SPLIT

/-- Number of chunks `ceil(len(sampled_images) / frames_per_chunk)`
(timelapse.py line 71), as the exact ceiling division. -/
def num_chunks (len : ℕ) : ℕ := (len + frames_per_chunk - 1) / frames_per_chunk

/-- The chunk slice `sampled_images[start_idx:end_idx]` of chunk `chunk_i`
(timelapse.py lines 76-78). -/
def chunk_slice (sampled : List String) (i : ℕ) : List String :=
  (sampled.drop (i * frames_per_chunk)).take frames_per_chunk

/-- The output path of chunk `i`: `timelapse_<i>.mp4` (timelapse.py line 83). -/
def chunk_name (i : ℕ) : String := "timelapse_" ++ toString i ++ ".mp4"

/-- The chunk-image lists passed to `generate_timelapse_chunk`, in loop order
(timelapse.py lines 75-88): every non-empty chunk is encoded, regardless of
the success or failure of the other chunks. -/
def encode_calls (sampled : List String) : List (List String) :=
  (List.range (num_chunks sampled.length)).filterMap (fun i =>
    if chunk_slice sampled i = [] then none else some (chunk_slice sampled i))

/-- The concatenation manifest `chunk_files` built by the chunk loop
(timelapse.py lines 73-89, written to `concat_list.txt` at lines 92-95): the
output path of each non-empty chunk whose encode succeeded, in chunk order. -/
def chunk_files (sampled : List String) (encodeOk : ℕ → Bool) : List String :=
  (List.range (num_chunks sampled.length)).filterMap (fun i =>
    if chunk_slice sampled i = [] then none
    else if encodeOk i then some (chunk_name i) else none)

/-- Observable trace of one `generate_timelapse` run. -/
structure TimelapseRun where
  sampled : List String
  encodeCalls : List (List String)
  manifest : List String
  concatCalls : ℕ
deriving Repr, DecidableEq

/-- One run of `generate_timelapse` (timelapse.py lines 46-112) over a
directory listing, with the success of each chunk encode given by the oracle
`encodeOk`: an empty companion listing returns at line 52 before any encoding
or concatenation; otherwise the sample is taken, every non-empty chunk is
encoded, and the concatenation step runs exactly once on the manifest of
successful chunk outputs. -/
def generate_timelapse (listing : List String) (encodeOk : ℕ → Bool) : TimelapseRun :=
  let images := companions listing
  if images.length = 0 then
    ⟨[], [], [], 0⟩
  else
    let sampled := sample images (TIMELAPSE_LENGTH * TIMELAPSE_FPS)
    ⟨sampled, encode_calls sampled, chunk_files sampled encodeOk, 1⟩

/-- A concrete ten-image companion listing, already in sorted order. -/
def images10 : List String :=
  ["i0", "i1", "i2", "i3", "i4", "i5", "i6", "i7", "i8", "i9"]

/-- A concrete retention cutoff (`now - MAX_HISTORY`) of 2024-06-01 00:00:00. -/
def ts_cutoff : Timestamp := ⟨2024, 6, 1, 0, 0, 0⟩


/-! ### Helper lemmas -/

theorem map_getD_range (l : List String) :
    (List.range l.length).map (fun i => l.getD i "") = l := by
  induction l with
  | nil => rfl
  | cons a t ih =>
    rw [List.length_cons, List.range_succ_eq_map, List.map_cons, List.map_map]
    have h1 : ∀ i ∈ List.range t.length,
        ((fun i => (a :: t).getD i "") ∘ Nat.succ) i = t.getD i "" := by
      intro i _
      simp [List.getD_cons_succ]
    rw [List.map_congr_left h1, ih]
    simp [List.getD_cons_zero]

theorem filterMap_ite_eq_map_filter (p : ℕ → Bool) (g : ℕ → String) (l : List ℕ) :
    l.filterMap (fun i => if p i then some (g i) else none) = (l.filter p).map g := by
  induction l with
  | nil => rfl
  | cons a t ih =>
    by_cases h : p a <;> simp [List.filterMap_cons, List.filter_cons, h, ih]

theorem filterMap_all_none {α β : Type} (f : α → Option β) (l : List α)
    (h : ∀ a ∈ l, f a = none) : l.filterMap f = [] := by
  induction l with
  | nil => rfl
  | cons a t ih =>
    rw [List.filterMap_cons, h a (List.mem_cons_self a t)]
    exact ih (fun b hb => h b (List.mem_cons_of_mem a hb))

theorem filterMap_all_some {α β : Type} (f : α → Option β) (g : α → β) (l : List α)
    (h : ∀ a ∈ l, f a = some (g a)) : l.filterMap f = l.map g := by
  induction l with
  | nil => rfl
  | cons a t ih =>
    rw [List.filterMap_cons, h a (List.mem_cons_self a t), List.map_cons,
      ih (fun b hb => h b (List.mem_cons_of_mem a hb))]

theorem join_chunk_slices (fpc : ℕ) (n : ℕ) :
    ∀ l : List String, l.length ≤ n * fpc →
      ((List.range n).map (fun i => (l.drop (i * fpc)).take fpc)).flatten = l := by
  induction n with
  | zero =>
    intro l hl
    simp at hl
    simp [hl]
  | succ k ih =>
    intro l hl
    rw [List.range_succ_eq_map, List.map_cons, List.map_map, List.flatten_cons]
    have h1 : ∀ i ∈ List.range k,
        ((fun i => (l.drop (i * fpc)).take fpc) ∘ Nat.succ) i
          = ((l.drop fpc).drop (i * fpc)).take fpc := by
      intro i _
      have : Nat.succ i * fpc = i * fpc + fpc := Nat.succ_mul i fpc
      simp only [Function.comp_apply, this, List.drop_drop]
      rw [Nat.add_comm]
    rw [List.map_congr_left h1]
    have h2 : (l.drop fpc).length ≤ k * fpc := by
      rw [List.length_drop]
      have hs : (k + 1) * fpc = k * fpc + fpc := by ring
      omega
    rw [ih (l.drop fpc) h2]
    simp

theorem length_le_num_chunks_mul (len : ℕ) : len ≤ num_chunks len * frames_per_chunk := by
  simp only [num_chunks, frames_per_chunk, TIMELAPSE_FPS, TIMELAPSE_SPLIT]
  omega

theorem chunk_slice_ne_nil (l : List String) (hl : l ≠ []) (i : ℕ)
    (hi : i < num_chunks l.length) : chunk_slice l i ≠ [] := by
  have hlen : 0 < l.length := List.length_pos.mpr hl
  have hstart : i * frames_per_chunk < l.length := by
    simp only [num_chunks, frames_per_chunk, TIMELAPSE_FPS, TIMELAPSE_SPLIT] at hi ⊢
    omega
  have : 0 < (chunk_slice l i).length := by
    simp only [chunk_slice, List.length_take, List.length_drop]
    have hfpc : 0 < frames_per_chunk := by
      simp [frames_per_chunk, TIMELAPSE_FPS, TIMELAPSE_SPLIT]
    omega
  exact List.length_pos.mp this

theorem sampleIndices_length (n t : ℕ) : (sampleIndices n t).length = t := by
  simp [sampleIndices]

theorem sampleIndices_self (n : ℕ) : sampleIndices n n = List.range n := by
  unfold sampleIndices
  have h : ∀ i ∈ List.range n, i * (n - 1) / (n - 1) = i := by
    intro i hi
    rcases Nat.eq_zero_or_pos (n - 1) with h0 | hpos
    · have hn : i = 0 := by
        have := List.mem_range.mp hi
        omega
      simp [hn]
    · exact Nat.mul_div_cancel _ hpos
  rw [List.map_congr_left h]
  simp

theorem sampleIndices_chain (n t : ℕ) (h2 : 2 ≤ t) (htn : t ≤ n) :
    List.Chain' (· < ·) (sampleIndices n t) := by
  unfold sampleIndices
  rw [List.chain'_map]
  obtain ⟨k, rfl⟩ : ∃ k, t = k + 1 := ⟨t - 1, by omega⟩
  rw [show k + 1 = Nat.succ k from rfl, List.chain'_range_succ]
  intro m _
  simp only [Nat.succ_sub_one]
  have hk : 0 < k := by omega
  have hkn : k ≤ n - 1 := by omega
  have h1 : m * (n - 1) + k ≤ (m + 1) * (n - 1) := by
    have : (m + 1) * (n - 1) = m * (n - 1) + (n - 1) := by ring
    omega
  calc m * (n - 1) / k < m * (n - 1) / k + 1 := Nat.lt_succ_self _
    _ = (m * (n - 1) + k) / k := (Nat.add_div_right _ hk).symm
    _ ≤ (m + 1) * (n - 1) / k := Nat.div_le_div_right h1
    _ = Nat.succ m * (n - 1) / k := by rw [Nat.succ_eq_add_one]

theorem sampleIndices_head (n t : ℕ) (h1 : 1 ≤ t) :
    (sampleIndices n t).head? = some 0 := by
  unfold sampleIndices
  obtain ⟨k, rfl⟩ : ∃ k, t = k + 1 := ⟨t - 1, by omega⟩
  rw [List.range_succ_eq_map, List.map_cons, List.head?_cons]
  simp

theorem sampleIndices_getLast (n t : ℕ) (h2 : 2 ≤ t) (htn : t ≤ n) :
    (sampleIndices n t).getLast? = some (n - 1) := by
  unfold sampleIndices
  obtain ⟨k, rfl⟩ : ∃ k, t = k + 1 := ⟨t - 1, by omega⟩
  rw [show List.range (k + 1) = List.range k ++ [k] by exact List.range_succ k,
    List.map_append, List.map_cons, List.map_nil]
  rw [List.getLast?_concat]
  have hk : 0 < k := by omega
  simp only [Nat.add_sub_cancel]
  rw [Nat.mul_div_cancel_left _ hk]

theorem sampleIndices_lt (n t : ℕ) (h1 : 1 ≤ t) (htn : t ≤ n) :
    ∀ i ∈ sampleIndices n t, i < n := by
  unfold sampleIndices
  intro i hi
  rw [List.mem_map] at hi
  obtain ⟨m, hm, rfl⟩ := hi
  have hmt : m < t := List.mem_range.mp hm
  have hn1 : 1 ≤ n := le_trans h1 htn
  rcases Nat.eq_zero_or_pos (t - 1) with h0 | hpos
  · simp [h0, Nat.div_zero]
    omega
  · have hle : m * (n - 1) ≤ (t - 1) * (n - 1) := by
      apply Nat.mul_le_mul_right
      omega
    have : m * (n - 1) / (t - 1) ≤ (t - 1) * (n - 1) / (t - 1) :=
      Nat.div_le_div_right hle
    rw [Nat.mul_div_cancel_left _ hpos] at this
    omega

theorem everyNth_one (l : List String) : everyNth l 1 = l := by
  unfold everyNth
  have h : ∀ p ∈ l.enum, (p.fst % 1 == 0) = true := by
    intro p _
    simp [Nat.mod_one]
  rw [List.filter_eq_self.mpr h]
  exact List.enum_map_snd l

/-! ### Claim theorems -/

/-- C4 (confirmed): with `frames_per_chunk = TIMELAPSE_FPS * TIMELAPSE_SPLIT`,
the chunk slices taken by the chunk loop are exhaustive and non-overlapping:
concatenating them in chunk-index order reproduces exactly the full sampled
sequence, for every sampled sequence. -/
theorem chunks_flatten_eq_sampled (sampled : List String) :
    frames_per_chunk = TIMELAPSE_FPS * TIMELAPSE_SPLIT ∧
    ((List.range (num_chunks sampled.length)).map
      (fun i => chunk_slice sampled i)).flatten = sampled := by
  constructor
  · rfl
  · simp only [chunk_slice]
    exact join_chunk_slices frames_per_chunk (num_chunks sampled.length) sampled
      (length_le_num_chunks_mul sampled.length)

/-- C9 (confirmed): when the companion-image listing is empty, the run returns
at timelapse.py line 52 with an empty sample, no encoder call, no manifest and
no concatenation. -/
theorem empty_listing_skips_run (listing : List String) (encodeOk : ℕ → Bool)
    (h : companions listing = []) :
    (generate_timelapse listing encodeOk).sampled = [] ∧
    (generate_timelapse listing encodeOk).encodeCalls = [] ∧
    (generate_timelapse listing encodeOk).manifest = [] ∧
    (generate_timelapse listing encodeOk).concatCalls = 0 := by
  simp [generate_timelapse, h]

/-- Closed witness for `empty_listing_skips_run` at the listing `["x.jpg"]`,
which contains no companion image. -/
theorem empty_listing_skips_run_witness :
    companions ["x.jpg"] = [] ∧
    ((generate_timelapse ["x.jpg"] (fun _ => true)).sampled = [] ∧
     (generate_timelapse ["x.jpg"] (fun _ => true)).encodeCalls = [] ∧
     (generate_timelapse ["x.jpg"] (fun _ => true)).manifest = [] ∧
     (generate_timelapse ["x.jpg"] (fun _ => true)).concatCalls = 0) :=
  ⟨by decide, empty_listing_skips_run ["x.jpg"] (fun _ => true) (by decide)⟩

/-- C10 (confirmed): in a run over a non-empty companion listing in which every
chunk encode fails, the concatenation step is still invoked exactly once, with
an empty manifest. -/
theorem all_chunks_failed_still_concats (listing : List String) (encodeOk : ℕ → Bool)
    (hne : companions listing ≠ []) (hfail : ∀ i, encodeOk i = false) :
    (generate_timelapse listing encodeOk).concatCalls = 1 ∧
    (generate_timelapse listing encodeOk).manifest = [] := by
  have h0 : ¬ (companions listing).length = 0 := by
    simpa [List.length_eq_zero] using hne
  constructor
  · simp [generate_timelapse, h0]
  · have hm : (generate_timelapse listing encodeOk).manifest
        = chunk_files (sample (companions listing) (TIMELAPSE_LENGTH * TIMELAPSE_FPS)) encodeOk := by
      simp [generate_timelapse, h0]
    rw [hm]
    apply filterMap_all_none
    intro i _
    simp [hfail i]

/-- Closed witness for `all_chunks_failed_still_concats` at the listing
`["a_small.jpg"]` with an always-failing encoder. -/
theorem all_chunks_failed_still_concats_witness :
    companions ["a_small.jpg"] ≠ [] ∧
    ((generate_timelapse ["a_small.jpg"] (fun _ => false)).concatCalls = 1 ∧
     (generate_timelapse ["a_small.jpg"] (fun _ => false)).manifest = []) :=
  ⟨by decide,
   all_chunks_failed_still_concats ["a_small.jpg"] (fun _ => false) (by decide) (fun _ => rfl)⟩

/-- C5 (confirmed): within one run, every chunk is passed to the encoder in
chunk order regardless of the failures of other chunks, and the concatenation
manifest contains exactly the output paths of the successful chunks, in their
original chunk order. -/
theorem chunk_failures_isolated (sampled : List String) (encodeOk : ℕ → Bool)
    (hs : sampled ≠ []) :
    encode_calls sampled
      = (List.range (num_chunks sampled.length)).map (fun i => chunk_slice sampled i) ∧
    chunk_files sampled encodeOk
      = ((List.range (num_chunks sampled.length)).filter (fun i => encodeOk i)).map chunk_name := by
  constructor
  · apply filterMap_all_some
    intro i hi
    rw [if_neg (chunk_slice_ne_nil sampled hs i (List.mem_range.mp hi))]
  · have hcong : ∀ i ∈ List.range (num_chunks sampled.length),
        (if chunk_slice sampled i = [] then none
         else if encodeOk i then some (chunk_name i) else none)
        = (if encodeOk i then some (chunk_name i) else none) := by
      intro i hi
      rw [if_neg (chunk_slice_ne_nil sampled hs i (List.mem_range.mp hi))]
    unfold chunk_files
    rw [List.filterMap_congr hcong, filterMap_ite_eq_map_filter]

/-- Closed witness for `chunk_failures_isolated` at the one-image sample `["a"]`
with an encoder that succeeds only on even chunk indices. -/
theorem chunk_failures_isolated_witness :
    (["a"] : List String) ≠ [] ∧
    (encode_calls ["a"]
       = (List.range (num_chunks (["a"] : List String).length)).map (fun i => chunk_slice ["a"] i) ∧
     chunk_files ["a"] (fun i => i % 2 == 0)
       = ((List.range (num_chunks (["a"] : List String).length)).filter
           (fun i => i % 2 == 0)).map chunk_name) :=
  ⟨by decide, chunk_failures_isolated ["a"] (fun i => i % 2 == 0) (by decide)⟩

/-- C1 (counterexample): the claim quantifies over "the temporal sampler",
whose sources include the fixed-step decimation variant of camera.py lines
79-81. At a listing of N = 10 companion images with target T = 3 (so 2 ≤ T ≤ N)
that variant returns `[images[0], images[3], images[6]]` and omits the last
available image `images[9]`, contradicting the claim as stated. -/
theorem decimation_sampler_drops_last_frame :
    2 ≤ 3 ∧ 3 ≤ images10.length ∧
    sampleDecimate images10 3 = ["i0", "i3", "i6"] ∧
    images10.getLast? = some "i9" ∧
    "i9" ∉ sampleDecimate images10 3 := by decide

/-- C1 (amended): for the interpolation sampler of timelapse.py lines 54-68
(the variant the specification designates as authoritative), for every
non-empty listing and every target T with 2 ≤ T ≤ N the sampler returns
exactly T entries, at strictly increasing source indices, including the first
available image (index 0) and the last available image (index N-1), every
selected index being in range. -/
theorem interpolation_sampler_exact (l : List String) (t : ℕ)
    (h2 : 2 ≤ t) (htn : t ≤ l.length) :
    (sample l t).length = t ∧
    List.Chain' (· < ·) (sampleIndices l.length t) ∧
    (sampleIndices l.length t).head? = some 0 ∧
    (sampleIndices l.length t).getLast? = some (l.length - 1) ∧
    (∀ i ∈ sampleIndices l.length t, i < l.length) ∧
    sample l t = (sampleIndices l.length t).map (fun i => l.getD i "") := by
  have hnlt : ¬ l.length < t := not_lt.mpr htn
  have hsample : sample l t = (sampleIndices l.length t).map (fun i => l.getD i "") := by
    simp [sample, hnlt]
  refine ⟨?_, sampleIndices_chain _ _ h2 htn, sampleIndices_head _ _ (by omega),
    sampleIndices_getLast _ _ h2 htn, sampleIndices_lt _ _ (by omega) htn, hsample⟩
  rw [hsample, List.length_map, sampleIndices_length]

/-- Closed witness for `interpolation_sampler_exact` at a four-image listing
with target T = 2: the sampler picks exactly the first and last images. -/
theorem interpolation_sampler_exact_witness :
    2 ≤ 2 ∧ 2 ≤ (["a", "b", "c", "d"] : List String).length ∧
    ((sample ["a", "b", "c", "d"] 2).length = 2 ∧
     List.Chain' (· < ·) (sampleIndices (["a", "b", "c", "d"] : List String).length 2) ∧
     (sampleIndices (["a", "b", "c", "d"] : List String).length 2).head? = some 0 ∧
     (sampleIndices (["a", "b", "c", "d"] : List String).length 2).getLast?
       = some ((["a", "b", "c", "d"] : List String).length - 1) ∧
     (∀ i ∈ sampleIndices (["a", "b", "c", "d"] : List String).length 2,
        i < (["a", "b", "c", "d"] : List String).length) ∧
     sample ["a", "b", "c", "d"] 2
       = (sampleIndices (["a", "b", "c", "d"] : List String).length 2).map
           (fun i => (["a", "b", "c", "d"] : List String).getD i "")) :=
  ⟨by decide, by decide, interpolation_sampler_exact ["a", "b", "c", "d"] 2 (by decide) (by decide)⟩

/-- C7 (confirmed): for every non-empty listing of N companion images with
N smaller than the target frame count, both sampler variants (timelapse.py
lines 54-68 and camera.py lines 72-81) return the full listing itself —
exactly N entries, in original order, with no padding and no error. -/
theorem sampler_returns_all_when_short (l : List String) (t : ℕ)
    (h0 : l ≠ []) (hlt : l.length < t) :
    sample l t = l ∧ sampleDecimate l t = l := by
  have hpos : 0 < l.length := List.length_pos.mpr h0
  constructor
  · have h1 : sample l t = (sampleIndices l.length l.length).map (fun i => l.getD i "") := by
      simp [sample, hlt]
    rw [h1, sampleIndices_self, map_getD_range]
  · have h1 : sampleDecimate l t = (everyNth l (max 1 (l.length / l.length))).take l.length := by
      simp [sampleDecimate, hlt]
    rw [h1, Nat.div_self hpos]
    norm_num
    rw [everyNth_one]
    exact List.take_length l

/-- Closed witness for `sampler_returns_all_when_short` at a three-image
listing with target 5: both variants return all three images in order. -/
theorem sampler_returns_all_when_short_witness :
    (["a", "b", "c"] : List String) ≠ [] ∧
    (["a", "b", "c"] : List String).length < 5 ∧
    (sample ["a", "b", "c"] 5 = ["a", "b", "c"] ∧
     sampleDecimate ["a", "b", "c"] 5 = ["a", "b", "c"]) :=
  ⟨by decide, by decide, sampler_returns_all_when_short ["a", "b", "c"] 5 (by decide) (by decide)⟩

/-- C8 (confirmed): a retention sweep never deletes a file whose name (minus
its `.jpg` extension, exactly as camera.py line 175 strips it) does not parse
as a timestamp in `DATETIME_FORMAT`: such a file is skipped and is still
present after the sweep, for every cutoff. -/
theorem retention_skips_unparsable (files : List String) (cutoff : Timestamp) (f : String)
    (hmem : f ∈ files) (hparse : strptimeTS (strDropRight f 4) = none) :
    f ∉ retention_deleted files cutoff ∧ f ∈ retention_survivors files cutoff := by
  have hcond : retention_condemns cutoff f = false := by
    simp [retention_condemns, hparse]
  constructor
  · intro hdel
    rw [retention_deleted, List.mem_filter, hcond] at hdel
    exact absurd hdel.2 (by simp)
  · rw [retention_survivors, List.mem_filter]
    exact ⟨hmem, by simp [hcond]⟩

/-- Closed witness for `retention_skips_unparsable` at the malformed filename
`"readme.jpg"`, whose stem `"readme"` fails to parse. -/
theorem retention_skips_unparsable_witness :
    ("readme.jpg" ∈ (["readme.jpg", "2024-01-01_00-00-00.jpg"] : List String)) ∧
    strptimeTS (strDropRight "readme.jpg" 4) = none ∧
    ("readme.jpg" ∉ retention_deleted ["readme.jpg", "2024-01-01_00-00-00.jpg"] ts_cutoff ∧
     "readme.jpg" ∈ retention_survivors ["readme.jpg", "2024-01-01_00-00-00.jpg"] ts_cutoff) :=
  ⟨by decide, by decide,
   retention_skips_unparsable ["readme.jpg", "2024-01-01_00-00-00.jpg"] ts_cutoff "readme.jpg"
     (by decide) (by decide)⟩

/-- C2 (code bug, demonstration): at a directory holding a stale full-size
image and its companion thumbnail, both far older than the cutoff, the sweep
of camera.py lines 171-182 deletes the full-size file but leaves the
companion: stripping only `.jpg` from `"..._small.jpg"` leaves the stem
`"..._small"`, which fails `strptime`, so the companion is skipped by the
`except ValueError: continue` branch and is never deleted. -/
theorem retention_keeps_stale_companion :
    strptimeTS "2024-01-01_00-00-00" = some ⟨2024, 1, 1, 0, 0, 0⟩ ∧
    strptimeTS (strDropRight "2024-01-01_00-00-00_small.jpg" 4) = none ∧
    retention_deleted ["2024-01-01_00-00-00.jpg", "2024-01-01_00-00-00_small.jpg"] ts_cutoff
      = ["2024-01-01_00-00-00.jpg"] ∧
    retention_survivors ["2024-01-01_00-00-00.jpg", "2024-01-01_00-00-00_small.jpg"] ts_cutoff
      = ["2024-01-01_00-00-00_small.jpg"] := by decide

/-- C6 (code bug, demonstration): camera.py line 158 computes the thumbnail
size as `int(dim * 0.2)` with no rounding to even numbers. At the Raspberry Pi
HQ sensor frame 4056x3040, rotated to 3040x4056, the persisted thumbnail is
608x811 and 811 is odd — the claimed evenness fails. -/
theorem thumbnail_odd_dimensions :
    thumb_size 3040 4056 = (608, 811) ∧ (thumb_size 3040 4056).2 % 2 = 1 := by decide

/-- C3 (counterexample): at an iteration whose processing took 5 seconds, the
capture loop of camera.py line 184 sleeps the full `PICTURE_FREQUENCY` of 10
seconds, not the period minus the elapsed time floored at the minimum sleep
(which would be 5 seconds with the spec's example minimum of 1 second). -/
theorem capture_sleep_ignores_elapsed :
    capture_sleep 5 = 10 ∧
    spec_capture_sleep PICTURE_FREQUENCY 5 1 = 5 ∧
    capture_sleep 5 ≠ spec_capture_sleep PICTURE_FREQUENCY 5 1 := by decide

/-- C3 (amended): the capture loop sleeps the constant `PICTURE_FREQUENCY`
after every iteration, independent of the elapsed processing time — trivially
never a negative duration; the subtract-elapsed-floored-at-a-minimum pattern
appears only in the standalone timelapse script's loop (timelapse.py line
132), whose sleep is `max(TIMELAPSE_GENERATE_FREQUENCY - took, 60)` and hence
is at least 60 seconds. -/
theorem capture_sleep_fixed_period :
    ∀ elapsed took : ℕ,
      capture_sleep elapsed = PICTURE_FREQUENCY ∧
      0 < capture_sleep elapsed ∧
      timelapse_loop_sleep took = max (TIMELAPSE_GENERATE_FREQUENCY - took) 60 ∧
      60 ≤ timelapse_loop_sleep took := by
  intro elapsed took
  refine ⟨rfl, by simp [capture_sleep, PICTURE_FREQUENCY], rfl, Nat.le_max_right _ _⟩
